import Mathlib

/-!
# Verification of the AI learning-assistant backend (`app.py`)

Shallow embedding of the generation pipeline of `app.py`:

* `LearningPathGenerator.generate_learning_path` / `generate_quiz`
  (collaborator call, greedy brace extraction, JSON parse, fallbacks),
* `_create_fallback_path` / `_create_fallback_quiz`,
* the `/api/generate-learning-path` route's input validation and derived
  statistics (`total_steps`, `estimated_time`),
* the `/api/quiz-feedback` route's scoring and tiered feedback.

Text is modelled as `List Char`.  Python's `json.loads` is modelled by a
recursive-descent parser `parseJson` covering the integer-numeral,
escape-free fragment of JSON (enough for every input considered here);
`re.search` with the pattern `\{.*\}` and `re.DOTALL` is modelled by its
documented leftmost-longest semantics (slice from the first opening brace
to the last closing brace, provided the former precedes the latter).
-/

namespace AILearn

/-- Text, modelled as a list of characters. -/
abbrev Chars := List Char

/-- Shorthand turning a Lean string literal into `Chars`. -/
def t (s : String) : Chars := s.data

/-- JSON values as produced by Python's `json.loads` (objects keep their
fields in textual order; duplicate keys are resolved by `lookupLast`
below, matching Python's last-binding-wins dict construction).  Numeric
literals are modelled as integers: the source never produces nor
inspects fractional numbers. -/
inductive Json where
  | null : Json
  | bool (b : Bool) : Json
  | num (n : Int) : Json
  | str (s : Chars) : Json
  | arr (xs : List Json) : Json
  | obj (fields : List (Chars × Json)) : Json

instance : Inhabited Json := ⟨Json.null⟩

mutual

/-- Structural equality of JSON values, Python's `==` on values produced
by `json.loads`. -/
def jsonEqB : Json → Json → Bool
  | .null, .null => true
  | .bool a, .bool b => a = b
  | .num a, .num b => a = b
  | .str a, .str b => a = b
  | .arr xs, .arr ys => jsonListEqB xs ys
  | .obj fs, .obj gs => jsonFieldsEqB fs gs
  | _, _ => false

/-- Structural equality on lists of JSON values. -/
def jsonListEqB : List Json → List Json → Bool
  | [], [] => true
  | x :: xs, y :: ys => jsonEqB x y && jsonListEqB xs ys
  | _, _ => false

/-- Structural equality on JSON object field lists. -/
def jsonFieldsEqB : List (Chars × Json) → List (Chars × Json) → Bool
  | [], [] => true
  | (k, v) :: fs, (k', v') :: gs => k = k' && jsonEqB v v' && jsonFieldsEqB fs gs
  | _, _ => false

end

/-- Last binding of a key in a field list: Python dicts built by
`json.loads` keep the last value bound to a duplicated key. -/
def lookupLast : List (Chars × Json) → Chars → Option Json
  | [], _ => none
  | (k', v) :: rest, k =>
    match lookupLast rest k with
    | some v' => some v'
    | none => if k' = k then some v else none

/-- Field lookup on a JSON object (`none` on non-objects or missing keys). -/
def jfield (j : Json) (k : Chars) : Option Json :=
  match j with
  | .obj fields => lookupLast fields k
  | _ => none

/-- Python's `d.get(k, dflt)` on a parsed JSON object.  (On a non-object
the source's `.get` would raise; the pipeline only applies it to values
parsed from a brace-delimited slice, which are always objects.) -/
def jgetD (j : Json) (k : Chars) (dflt : Json) : Json :=
  (jfield j k).getD dflt

/-- Whitespace for `str.strip()` / JSON token separation. -/
def isWsC (c : Char) : Bool := c = ' ' || c = '\n' || c = '\t' || c = '\r'

/-- Skip leading whitespace. -/
def skipWs (cs : Chars) : Chars := cs.dropWhile isWsC

/-- Python's `str.strip()`: drop leading and trailing whitespace. -/
def pyStrip (cs : Chars) : Chars :=
  ((cs.dropWhile isWsC).reverse.dropWhile isWsC).reverse

/-- ASCII decimal digit. -/
def isDigitC (c : Char) : Bool := '0' ≤ c && c ≤ '9'

/-- Value of a string of decimal digits. -/
def natOfDigits (ds : Chars) : Nat :=
  ds.foldl (fun a c => a * 10 + (c.toNat - 48)) 0

/-- Body of a JSON string literal, after the opening quote: the
characters up to the closing quote together with the remaining input.
Escape sequences are outside the modelled fragment (a backslash fails). -/
def parseStrRest : Chars → Option (Chars × Chars)
  | [] => none
  | c :: cs =>
    if c = '"' then some ([], cs)
    else if c = '\\' then none
    else
      match parseStrRest cs with
      | some (s, rest) => some (c :: s, rest)
      | none => none

mutual

/-- One JSON value (fuelled recursive descent; the fuel only bounds
nesting and is in practice at least the input length). -/
def parseVal : Nat → Chars → Option (Json × Chars)
  | 0, _ => none
  | Nat.succ fuel, cs =>
    match skipWs cs with
    | [] => none
    | c :: rest =>
      if c = '{' then
        match skipWs rest with
        | '}' :: rest2 => some (.obj [], rest2)
        | _ => parseFields fuel rest []
      else if c = '[' then
        match skipWs rest with
        | ']' :: rest2 => some (.arr [], rest2)
        | _ => parseItems fuel rest []
      else if c = '"' then
        match parseStrRest rest with
        | some (s, rest2) => some (.str s, rest2)
        | none => none
      else if c = 't' then
        match rest with
        | 'r' :: 'u' :: 'e' :: r2 => some (.bool true, r2)
        | _ => none
      else if c = 'f' then
        match rest with
        | 'a' :: 'l' :: 's' :: 'e' :: r2 => some (.bool false, r2)
        | _ => none
      else if c = 'n' then
        match rest with
        | 'u' :: 'l' :: 'l' :: r2 => some (.null, r2)
        | _ => none
      else if c = '-' then
        match rest.takeWhile isDigitC with
        | [] => none
        | ds => some (.num (-(natOfDigits ds : Int)), rest.dropWhile isDigitC)
      else if isDigitC c then
        some (.num (natOfDigits ((c :: rest).takeWhile isDigitC)),
              (c :: rest).dropWhile isDigitC)
      else none

/-- Remaining items of a JSON array, accumulating parsed elements. -/
def parseItems : Nat → Chars → List Json → Option (Json × Chars)
  | 0, _, _ => none
  | Nat.succ fuel, cs, acc =>
    match parseVal fuel cs with
    | none => none
    | some (v, rest) =>
      match skipWs rest with
      | ',' :: r2 => parseItems fuel r2 (acc ++ [v])
      | ']' :: r2 => some (.arr (acc ++ [v]), r2)
      | _ => none

/-- Remaining fields of a JSON object, accumulating parsed bindings. -/
def parseFields : Nat → Chars → List (Chars × Json) → Option (Json × Chars)
  | 0, _, _ => none
  | Nat.succ fuel, cs, acc =>
    match skipWs cs with
    | '"' :: r1 =>
      match parseStrRest r1 with
      | none => none
      | some (k, r2) =>
        match skipWs r2 with
        | ':' :: r3 =>
          match parseVal fuel r3 with
          | none => none
          | some (v, r4) =>
            match skipWs r4 with
            | ',' :: r5 => parseFields fuel r5 (acc ++ [(k, v)])
            | '}' :: r5 => some (.obj (acc ++ [(k, v)]), r5)
            | _ => none
        | _ => none
    | _ => none

end

/-- Python's `json.loads`, on the modelled fragment: the whole input must
be one JSON value surrounded by optional whitespace. -/
def parseJson (cs : Chars) : Option Json :=
  match parseVal (cs.length + 1) cs with
  | some (j, rest) => if skipWs rest = [] then some j else none
  | none => none

/-!
## Brace extraction and the generation pipeline

`re.search` of the pattern `\{.*\}` with `re.DOTALL` returns, when some
opening brace is followed (strictly, since the two characters differ) by
a closing brace, the slice of the text from its first opening brace to
its last closing brace (leftmost match start, greedy `.*`); otherwise it
returns no match.
-/

/-- Scan predicate of the regex model: not an opening brace. -/
def notOpenB (c : Char) : Bool := decide (c ≠ '{')

/-- Scan predicate of the regex model: not a closing brace. -/
def notCloseB (c : Char) : Bool := decide (c ≠ '}')

/-- The matched slice of `re.search` on the `\{.*\}` pattern with
`re.DOTALL`: everything from the first opening brace to the last closing
brace, `none` when no opening brace precedes a closing brace. -/
def extractBraced (cs : Chars) : Option Chars :=
  match cs.dropWhile notOpenB with
  | [] => none
  | c :: rest =>
    match (c :: rest).reverse.dropWhile notCloseB with
    | [] => none
    | d :: rrest => some (d :: rrest).reverse

/-- Outcome of the collaborator call `self.model.generate_content(prompt)`
(together with the `.text` access): either free-form response text or an
exception, which the source catches with its blanket `except`. -/
inductive ModelResponse where
  | ok (text : Chars) : ModelResponse
  | error : ModelResponse

/-- The generator's collaborator handle: `self.model` is `None` when no
API key is configured, otherwise the (here: already-resolved) outcome of
the single `generate_content` call the pipeline makes. -/
abbrev Collab := Option ModelResponse

/-- Model of `LearningPathGenerator._create_fallback_path`: the
deterministic fallback learning path.  (`timeframe` is accepted but unused, exactly as
in the source.) -/
def create_fallback_path (topic level timeframe : Chars) : Json :=
  .obj [
    (t "title", .str (topic ++ t " Learning Path")),
    (t "description",
      .str (t "A structured " ++ level ++ t "-level approach to learning " ++ topic)),
    (t "steps", .arr [
      .obj [
        (t "title", .str (t "Foundation & Setup")),
        (t "description",
          .str (t "Get started with " ++ topic ++ t " fundamentals and environment setup")),
        (t "duration", .str (t "2-3 days")),
        (t "resources", .arr [.str (t "Official documentation"),
          .str (t "Setup guides"), .str (t "Beginner tutorials")]),
        (t "key_concepts", .arr [.str (t "Basic terminology"),
          .str (t "Environment setup"), .str (t "First steps")]),
        (t "practical_tasks", .arr [.str (t "Install tools"),
          .str (t "Run hello world"), .str (t "Basic exercises")])],
      .obj [
        (t "title", .str (t "Core Concepts")),
        (t "description",
          .str (t "Master the fundamental concepts and principles of " ++ topic)),
        (t "duration", .str (t "1 week")),
        (t "resources", .arr [.str (t "Interactive tutorials"),
          .str (t "Documentation"), .str (t "Practice exercises")]),
        (t "key_concepts", .arr [.str (t "Core principles"),
          .str (t "Best practices"), .str (t "Common patterns")]),
        (t "practical_tasks", .arr [.str (t "Build simple projects"),
          .str (t "Complete exercises"), .str (t "Code reviews")])],
      .obj [
        (t "title", .str (t "Practical Application")),
        (t "description",
          .str (t "Apply " ++ topic ++ t " knowledge through real-world projects")),
        (t "duration", .str (t "1-2 weeks")),
        (t "resources", .arr [.str (t "Project ideas"),
          .str (t "GitHub repos"), .str (t "Community forums")]),
        (t "key_concepts", .arr [.str (t "Project structure"),
          .str (t "Real-world patterns"), .str (t "Problem solving")]),
        (t "practical_tasks", .arr [.str (t "Build portfolio project"),
          .str (t "Deploy application"), .str (t "Get feedback")])],
      .obj [
        (t "title", .str (t "Advanced Topics")),
        (t "description",
          .str (t "Explore advanced " ++ topic ++ t " features and best practices")),
        (t "duration", .str (t "1 week")),
        (t "resources", .arr [.str (t "Advanced tutorials"),
          .str (t "Expert blogs"), .str (t "Documentation")]),
        (t "key_concepts", .arr [.str (t "Advanced patterns"),
          .str (t "Performance"), .str (t "Scalability")]),
        (t "practical_tasks", .arr [.str (t "Optimize projects"),
          .str (t "Learn advanced features"), .str (t "Mentor others")])]]),
    (t "total_estimated_time", .str (t "40-60 hours")),
    (t "difficulty_progression", .str (level ++ t " to intermediate")),
    (t "success_metrics", .arr [.str (t "Completed projects"),
      .str (t "Understanding of concepts"), .str (t "Ability to solve problems")])]

/-- Model of `LearningPathGenerator._create_fallback_quiz`: the
deterministic fallback quiz (a JSON array of three question objects; `level` is
accepted but unused, exactly as in the source). -/
def create_fallback_quiz (topic level : Chars) : Json :=
  .arr [
    .obj [
      (t "question",
        .str (t "What is the most important first step when learning " ++ topic ++ t "?")),
      (t "options", .arr [
        .str (t "Jump into advanced topics immediately"),
        .str (t "Understand fundamentals and set up environment properly"),
        .str (t "Memorize syntax without practice"),
        .str (t "Skip documentation completely")]),
      (t "correct_answer", .num 1),
      (t "explanation",
        .str (t "Starting with fundamentals and proper setup creates a strong foundation"))],
    .obj [
      (t "question",
        .str (t "Which is the best approach for mastering " ++ topic ++ t "?")),
      (t "options", .arr [
        .str (t "Only read theory without practicing"),
        .str (t "Only watch videos without coding"),
        .str (t "Combine theory with hands-on practice and projects"),
        .str (t "Copy code without understanding the logic")]),
      (t "correct_answer", .num 2),
      (t "explanation",
        .str (t "Combining theory with practice reinforces learning and builds practical skills"))],
    .obj [
      (t "question",
        .str (t "How can you effectively track your " ++ topic ++ t " learning progress?")),
      (t "options", .arr [
        .str (t "Only count study hours"),
        .str (t "Build increasingly complex projects and measure understanding"),
        .str (t "Just read about concepts without applying them"),
        .str (t "Memorize definitions without practical use")]),
      (t "correct_answer", .num 1),
      (t "explanation",
        .str (t "Building projects provides concrete evidence of skill development and understanding"))]]

/-- Model of `LearningPathGenerator.generate_learning_path`.  The prompt built
from `topic`, `level`, `timeframe`, `goals` only parameterizes the
opaque collaborator, so it is elided; `collab` is the collaborator
handle with the resolved outcome of the single call.  Branches map
one-to-one onto the source: no model → fallback; exception (anywhere in
the `try`, including `json.loads`) → fallback; no regex match →
fallback; parse failure → fallback; parsed value returned as-is. -/
def generate_learning_path (collab : Collab) (topic level timeframe : Chars) : Json :=
  match collab with
  | none => create_fallback_path topic level timeframe
  | some .error => create_fallback_path topic level timeframe
  | some (.ok text) =>
    match extractBraced (pyStrip text) with
    | none => create_fallback_path topic level timeframe
    | some s =>
      match parseJson s with
      | some j => j
      | none => create_fallback_path topic level timeframe

/-- Model of `LearningPathGenerator.generate_quiz`.  As above, the prompt (which
also carries `num_questions`) is elided.  On a successful parse the
source returns `quiz_data.get('questions', [])`. -/
def generate_quiz (collab : Collab) (topic level : Chars) : Json :=
  match collab with
  | none => create_fallback_quiz topic level
  | some .error => create_fallback_quiz topic level
  | some (.ok text) =>
    match extractBraced (pyStrip text) with
    | none => create_fallback_quiz topic level
    | some s =>
      match parseJson s with
      | some j => jgetD j (t "questions") (.arr [])
      | none => create_fallback_quiz topic level

/-!
## The `/api/generate-learning-path` route: validation and statistics
-/

/-- Input validation plus pipeline dispatch of the
`/api/generate-learning-path` route (lines 242-256).  The request body
(`request.get_json()`) is modelled as `none` (no JSON body) or a JSON
object's field list.  The route rejects with 400 "Topic is required"
when `not data` (no body or empty object) or `'topic' not in data`;
otherwise it invokes the pipeline with `data['topic']`.  The result is
the topic value handed to the pipeline, `none` when the route rejects. -/
def route_pipeline_topic (data : Option (List (Chars × Json))) : Option Json :=
  match data with
  | none => none
  | some fields =>
    if fields.isEmpty then none
    else lookupLast fields (t "topic")

/-- The maximal runs of decimal digits in a text, as numbers:
`re.findall` of the pattern `\d+` followed by `int` conversion.
`acc` accumulates the (reversed) digits of the run being read. -/
def digitRunsAux : Chars → Chars → List Nat
  | [], acc => if acc = [] then [] else [natOfDigits acc.reverse]
  | c :: cs, acc =>
    if isDigitC c then digitRunsAux cs (c :: acc)
    else if acc = [] then digitRunsAux cs []
    else natOfDigits acc.reverse :: digitRunsAux cs []

/-- Model of `re.findall` of the digit-run pattern over a text, each
match converted with `int`. -/
def findall_digits (cs : Chars) : List Nat := digitRunsAux cs []

/-- The route's `estimated_time` statistic on the
`total_estimated_time` text: the floor (`//`) of the mean of the
numbers in the text, or 50 when there are none. -/
def avg_time (estimated_time : Chars) : Nat :=
  let nums := findall_digits estimated_time
  if nums ≠ [] then nums.sum / nums.length else 50

/-- The route's `total_steps` statistic:
`len(learning_path.get('steps', []))`.  Python's `len` is defined on
lists and strings; on any other value it raises (modelled as `none`,
which the route's blanket `except` would turn into a 500 response). -/
def route_total_steps (learning_path : Json) : Option Nat :=
  match jgetD learning_path (t "steps") (.arr []) with
  | .arr xs => some xs.length
  | .str s => some s.length
  | _ => none

/-!
## The `/api/quiz-feedback` route
-/

/-- The score of `quiz_feedback`:
`sum(1 for i, ans in enumerate(user_answers)
       if i < len(correct_answers) and ans == correct_answers[i])`. -/
def quizScore (user correct : List Json) : Nat :=
  (user.enum.filter
    (fun p => decide (p.1 < correct.length) && jsonEqB p.2 (correct.getD p.1 .null))).length

/-- The feedback payload built by `quiz_feedback`. -/
structure Feedback where
  overall_feedback : Chars
  strengths : List Chars
  improvement_areas : List Chars
  next_steps : List Chars
  resources : List Chars
deriving DecidableEq

/-- The `/api/quiz-feedback` route's feedback computation (lines
311-330).  The source's tier tests are on IEEE doubles:
`score >= total * 0.8` and `score >= total * 0.6`.  The double nearest
0.8 is `0.8 + 0.4 * 2 ^ (-53)` and the double nearest 0.6 is
`0.6 - 0.2 * 2 ^ (-53)`, and for every `total < 2 ^ 49` the products
`total * 0.8` and `total * 0.6` round to within less than half an
integer of the exact values `4 * total / 5` and `3 * total / 5`, with
`total * 0.8` rounding to exactly `4 * total / 5` and `total * 0.6` to
exactly `3 * total / 5` whenever those are integers; hence the float
tests coincide with the integer tests `5 * score ≥ 4 * total` and
`5 * score ≥ 3 * total` used here (for every representable `total`,
i.e. every list length a Python process can produce). -/
def quiz_feedback (topic : Chars) (user correct : List Json) : Feedback :=
  let score := quizScore user correct
  let total := user.length
  let feedback :=
    if score = total then
      t "Excellent work! You have a strong understanding of the concepts."
    else if 5 * score ≥ 4 * total then
      t "Great job! You're doing very well with most concepts."
    else if 5 * score ≥ 3 * total then
      t "Good progress! Review the areas where you missed questions."
    else
      t "Keep practicing! Focus on the fundamental concepts."
  ⟨feedback,
   if score > 0 then [t "Completed the quiz"] else [t "Attempted all questions"],
   if score < total then [t "Review missed topics"]
   else [t "Continue learning advanced topics"],
   [t "Practice more " ++ topic ++ t " exercises",
    t "Build projects to reinforce learning"],
   [t "Official documentation", t "Interactive tutorials", t "Practice platforms"]⟩

/-!
## Schema conformance (spec §3)

Boolean checkers transcribing the spec's section 3 schemas, used to
settle the schema-conformance invariant.  These follow the spec's words
(the code performs no such validation).
-/

/-- A JSON text value. -/
def isStrJ : Json → Bool
  | .str _ => true
  | _ => false

/-- A JSON sequence of text values. -/
def isStrArrJ : Json → Bool
  | .arr xs => xs.all isStrJ
  | _ => false

/-- The named field is present and satisfies the given checker. -/
def fieldIs (j : Json) (k : Chars) (p : Json → Bool) : Bool :=
  match jfield j k with
  | some v => p v
  | none => false

/-- Spec §3 **Step**: title, description, duration (text), resources,
key_concepts, practical_tasks (sequences of text). -/
def conformsStep (j : Json) : Bool :=
  fieldIs j (t "title") isStrJ &&
  fieldIs j (t "description") isStrJ &&
  fieldIs j (t "duration") isStrJ &&
  fieldIs j (t "resources") isStrArrJ &&
  fieldIs j (t "key_concepts") isStrArrJ &&
  fieldIs j (t "practical_tasks") isStrArrJ

/-- Spec §3 **LearningPath**: title, description (text), ordered
sequence of Steps, total_estimated_time, difficulty_progression (text),
success_metrics (sequence of text). -/
def conformsLearningPath (j : Json) : Bool :=
  fieldIs j (t "title") isStrJ &&
  fieldIs j (t "description") isStrJ &&
  fieldIs j (t "steps") (fun s =>
    match s with
    | .arr xs => xs.all conformsStep
    | _ => false) &&
  fieldIs j (t "total_estimated_time") isStrJ &&
  fieldIs j (t "difficulty_progression") isStrJ &&
  fieldIs j (t "success_metrics") isStrArrJ

/-- Spec §3 **Question**: question text, exactly 4 text options, a
zero-based `correct_answer` index into the options, an explanation. -/
def conformsQuestion (j : Json) : Bool :=
  fieldIs j (t "question") isStrJ &&
  fieldIs j (t "options") (fun s =>
    match s with
    | .arr xs => xs.all isStrJ && xs.length = 4
    | _ => false) &&
  (match jfield j (t "options"), jfield j (t "correct_answer") with
   | some (.arr xs), some (.num i) => 0 ≤ i && i < xs.length
   | _, _ => false) &&
  fieldIs j (t "explanation") isStrJ

/-- Spec §3 **Quiz**: an ordered sequence of Questions. -/
def conformsQuiz (j : Json) : Bool :=
  match j with
  | .arr xs => xs.all conformsQuestion
  | _ => false

/-- Reference formulation of the quiz score: matches at positions valid
in both sequences, walking the two sequences in step. -/
def countMatches : List Json → List Json → Nat
  | [], _ => 0
  | _ :: _, [] => 0
  | x :: xs, y :: ys => (if jsonEqB x y then 1 else 0) + countMatches xs ys

/-- Spec §8 safety condition on one question: the options are exactly 4
and `correct_answer` is a number indexing into them. -/
def questionInBounds (q : Json) : Bool :=
  match jfield q (t "options"), jfield q (t "correct_answer") with
  | some (.arr opts), some (.num i) =>
    decide (opts.length = 4) && decide (0 ≤ i) && decide (i < (opts.length : Int))
  | _, _ => false

/-- Every question of a quiz (a JSON array) passes `questionInBounds`. -/
def quizQuestionsInBounds (j : Json) : Bool :=
  match j with
  | .arr qs => qs.all questionInBounds
  | _ => false

/-- Titles of the steps of a learning path, when it has a step array. -/
def pathStepTitles (lp : Json) : Option (List (Option Json)) :=
  match jfield lp (t "steps") with
  | some (.arr xs) => some (xs.map (fun q => jfield q (t "title")))
  | _ => none

/-- Concrete collaborator response: a well-formed JSON object that is
not a learning path (and has no questions key). -/
def exTextA : Chars := ('{' :: t "\"a\": 1") ++ ['}']

/-- Concrete collaborator response: a learning path whose step sequence
is empty. -/
def exTextSteps : Chars := ('{' :: t "\"steps\": []") ++ ['}']

/-- Concrete collaborator response: a brace-delimited slice that is not
parseable JSON. -/
def exTextBad : Chars := ('{' :: t "x") ++ ['}']

/-!
## Theorems
-/

/-- The head of a nonempty `dropWhile` result fails the predicate. -/
theorem dropWhile_head_not {α : Type} {p : α → Bool} :
    ∀ {l : List α} {c rest}, l.dropWhile p = c :: rest → p c = false := by
  intro l
  induction l with
  | nil => intro c rest h; simp [List.dropWhile] at h
  | cons a l ih =>
    intro c rest h
    by_cases ha : p a
    · rw [List.dropWhile_cons_of_pos ha] at h
      exact ih h
    · rw [List.dropWhile_cons_of_neg ha] at h
      cases h
      simpa using ha

/-- `dropWhile` runs through a prefix of satisfied elements and stops at
a failing element. -/
theorem dropWhile_append_all {α : Type} {p : α → Bool} :
    ∀ {l : List α} {c : α} {x : List α}, (∀ a ∈ l, p a = true) → p c = false →
      (l ++ c :: x).dropWhile p = c :: x := by
  intro l
  induction l with
  | nil =>
    intro c x _ hc
    rw [List.nil_append]
    exact List.dropWhile_cons_of_neg (by simp [hc])
  | cons a l ih =>
    intro c x hl hc
    have ha : p a = true := hl a (by simp)
    rw [List.cons_append, List.dropWhile_cons_of_pos ha]
    exact ih (fun b hb => hl b (List.mem_cons_of_mem _ hb)) hc

/-- Elements dropped by `dropWhile` before a protected failing element
come from the prefix. -/
theorem dropWhile_append_sub {α : Type} {p : α → Bool} {c : α} (hc : p c = false) :
    ∀ (l x : List α), ∃ l₂, (l ++ c :: x).dropWhile p = l₂ ++ c :: x ∧ ∀ a ∈ l₂, a ∈ l := by
  intro l
  induction l with
  | nil =>
    intro x
    refine ⟨[], ?_, by simp⟩
    exact List.dropWhile_cons_of_neg (by simp [hc])
  | cons a l ih =>
    intro x
    by_cases ha : p a
    · obtain ⟨l₂, h1, h2⟩ := ih x
      refine ⟨l₂, ?_, fun b hb => List.mem_cons_of_mem _ (h2 b hb)⟩
      rw [List.cons_append, List.dropWhile_cons_of_pos ha]
      exact h1
    · refine ⟨a :: l, ?_, fun b hb => hb⟩
      rw [List.cons_append, List.dropWhile_cons_of_neg ha]

/-- A text is its strip with the stripped whitespace re-attached. -/
theorem pyStrip_decomp (cs : Chars) : ∃ pre suf, cs = pre ++ pyStrip cs ++ suf := by
  refine ⟨cs.takeWhile isWsC, ((cs.dropWhile isWsC).reverse.takeWhile isWsC).reverse, ?_⟩
  conv_lhs => rw [← List.takeWhile_append_dropWhile isWsC cs]
  rw [List.append_assoc]
  congr 1
  conv_lhs => rw [← List.reverse_reverse (cs.dropWhile isWsC),
    ← List.takeWhile_append_dropWhile isWsC (cs.dropWhile isWsC).reverse]
  rw [List.reverse_append]
  rfl

/-- Characterization of the greedy brace extraction: it succeeds exactly
on texts decomposing around their first opening brace and last closing
brace, returning the slice between and including them. -/
theorem extractBraced_some_iff (cs s : Chars) :
    extractBraced cs = some s ↔
      ∃ l m r, cs = l ++ '{' :: (m ++ '}' :: r) ∧ '{' ∉ l ∧ '}' ∉ r
        ∧ s = '{' :: (m ++ ['}']) := by
  constructor
  · intro h
    cases hd : cs.dropWhile notOpenB with
    | nil => simp [extractBraced, hd] at h
    | cons c rest =>
      have hc : c = '{' := by
        have := dropWhile_head_not hd
        simpa [notOpenB] using this
      subst hc
      cases he : (rest.reverse ++ ['{']).dropWhile notCloseB with
      | nil =>
        simp [extractBraced, hd, he] at h
      | cons d rrest =>
        have hrevcons : ('{' :: rest).reverse.dropWhile notCloseB = d :: rrest := by
          rw [List.reverse_cons]
          exact he
        have hdc : d = '}' := by
          have := dropWhile_head_not hrevcons
          simpa [notCloseB] using this
        subst hdc
        have hs : s = rrest.reverse ++ ['}'] := by
          simp [extractBraced, hd, he] at h
          exact h.symm
        have hsplit : cs = cs.takeWhile notOpenB ++ '{' :: rest := by
          conv_lhs => rw [← List.takeWhile_append_dropWhile notOpenB cs]
          rw [hd]
        have hlmem : '{' ∉ cs.takeWhile notOpenB := by
          intro hmem
          have := List.mem_takeWhile_imp hmem
          simp [notOpenB] at this
        have hsplit2 : ('{' :: rest).reverse
            = ('{' :: rest).reverse.takeWhile notCloseB ++ '}' :: rrest := by
          conv_lhs => rw [← List.takeWhile_append_dropWhile notCloseB ('{' :: rest).reverse]
          rw [hrevcons]
        have hrmem : '}' ∉ (('{' :: rest).reverse.takeWhile notCloseB).reverse := by
          intro hmem
          rw [List.mem_reverse] at hmem
          have := List.mem_takeWhile_imp hmem
          simp [notCloseB] at this
        have hsplit3 : '{' :: rest
            = rrest.reverse ++ '}' :: (('{' :: rest).reverse.takeWhile notCloseB).reverse := by
          have h5 := congrArg List.reverse hsplit2
          simpa [List.reverse_append, List.append_assoc] using h5
        cases hrr : rrest.reverse with
        | nil =>
          rw [hrr, List.nil_append] at hsplit3
          injection hsplit3 with h1 _
          exact absurd h1 (by decide)
        | cons c₀ m =>
          rw [hrr] at hsplit3
          simp only [List.cons_append, List.append_assoc] at hsplit3
          injection hsplit3 with h1 h2
          refine ⟨cs.takeWhile notOpenB, m,
            (('{' :: rest).reverse.takeWhile notCloseB).reverse, ?_, hlmem, hrmem, ?_⟩
          · conv_lhs => rw [hsplit, h2]
          · rw [hs, hrr, ← h1]
            simp
  · rintro ⟨l, m, r, rfl, hl, hr, rfl⟩
    have hd : (l ++ '{' :: (m ++ '}' :: r)).dropWhile notOpenB = '{' :: (m ++ '}' :: r) :=
      dropWhile_append_all
        (fun a ha => by
          simp only [notOpenB, decide_eq_true_eq]
          exact fun hEq => hl (hEq ▸ ha))
        (by simp [notOpenB])
    have hrev : ('{' :: (m ++ '}' :: r)).reverse = r.reverse ++ '}' :: (m.reverse ++ ['{']) := by
      simp [List.append_assoc]
    have he : (r.reverse ++ '}' :: (m.reverse ++ ['{'])).dropWhile notCloseB
        = '}' :: (m.reverse ++ ['{']) :=
      dropWhile_append_all
        (fun a ha => by
          simp only [notCloseB, decide_eq_true_eq]
          rw [List.mem_reverse] at ha
          exact fun hEq => hr (hEq ▸ ha))
        (by simp [notCloseB])
    simp only [extractBraced, hd, hrev, he]
    simp

/-- C3: a collaborator response containing no substring that starts with
an opening brace and ends with a closing brace makes
`generate_learning_path` return the fallback path; when such a substring
exists, the extracted candidate is the slice from the first opening
brace to the last closing brace of the text; a parse failure on that
slice also yields the fallback. -/
theorem C3_extraction_and_fallback :
    (∀ text topic level timeframe,
        (¬ ∃ l m r, text = l ++ '{' :: (m ++ '}' :: r)) →
        generate_learning_path (some (.ok text)) topic level timeframe
          = create_fallback_path topic level timeframe)
    ∧ (∀ (text l m r : Chars), text = l ++ '{' :: (m ++ '}' :: r) → '{' ∉ l → '}' ∉ r →
        extractBraced (pyStrip text) = some ('{' :: (m ++ ['}'])))
    ∧ (∀ text s topic level timeframe,
        extractBraced (pyStrip text) = some s → parseJson s = none →
        generate_learning_path (some (.ok text)) topic level timeframe
          = create_fallback_path topic level timeframe) := by
  refine ⟨?_, ?_, ?_⟩
  · intro text topic level timeframe hno
    cases hE : extractBraced (pyStrip text) with
    | none => simp [generate_learning_path, hE]
    | some s =>
      exfalso
      obtain ⟨l, m, r, hdec, _, _, _⟩ := (extractBraced_some_iff (pyStrip text) s).1 hE
      obtain ⟨pre, suf, hts⟩ := pyStrip_decomp text
      refine hno ⟨pre ++ l, m, r ++ suf, ?_⟩
      rw [hts, hdec]
      simp
  · intro text l m r htext hl hr
    subst htext
    obtain ⟨l₂, h1, h2⟩ :=
      dropWhile_append_sub (show isWsC '{' = false by decide) l (m ++ '}' :: r)
    have hrev2 : (l₂ ++ '{' :: (m ++ '}' :: r)).reverse
        = r.reverse ++ '}' :: (m.reverse ++ '{' :: l₂.reverse) := by
      simp [List.append_assoc]
    obtain ⟨r₂, h3, h4⟩ :=
      dropWhile_append_sub (show isWsC '}' = false by decide) r.reverse
        (m.reverse ++ '{' :: l₂.reverse)
    have hstrip : pyStrip (l ++ '{' :: (m ++ '}' :: r))
        = l₂ ++ '{' :: (m ++ '}' :: r₂.reverse) := by
      simp only [pyStrip]
      rw [h1, hrev2, h3]
      simp [List.append_assoc]
    rw [hstrip]
    refine (extractBraced_some_iff _ _).2 ⟨l₂, m, r₂.reverse, rfl, ?_, ?_, rfl⟩
    · exact fun hmem => hl (h2 _ hmem)
    · intro hmem
      rw [List.mem_reverse] at hmem
      exact hr (by simpa using h4 _ hmem)
  · intro text s topic level timeframe hE hP
    simp [generate_learning_path, hE, hP]

/-- C3 witness: the three branches at concrete inputs: a braceless text
falls back; a concrete decomposed text extracts its brace slice; the
unparseable slice text falls back. -/
theorem C3_extraction_and_fallback_witness :
    generate_learning_path (some (.ok (t "hello"))) (t "python") (t "beginner") (t "1 month")
      = create_fallback_path (t "python") (t "beginner") (t "1 month")
    ∧ extractBraced (pyStrip (['a'] ++ '{' :: (t "x" ++ '}' :: ['b'])))
      = some ('{' :: (t "x" ++ ['}']))
    ∧ generate_learning_path (some (.ok exTextBad)) (t "python") (t "beginner") (t "1 month")
      = create_fallback_path (t "python") (t "beginner") (t "1 month") :=
  ⟨C3_extraction_and_fallback.1 (t "hello") (t "python") (t "beginner") (t "1 month")
      (by
        rintro ⟨l, m, r, h⟩
        have hmem : '{' ∈ t "hello" := by rw [h]; simp
        exact absurd hmem (by decide)),
   C3_extraction_and_fallback.2.1 (['a'] ++ '{' :: (t "x" ++ '}' :: ['b']))
      ['a'] (t "x") ['b'] rfl (by decide) (by decide),
   C3_extraction_and_fallback.2.2 exTextBad exTextBad (t "python") (t "beginner")
      (t "1 month") rfl rfl⟩

/-- C1 counterexample: a collaborator response whose parsed object is
not schema-conformant (it is not a LearningPath at all) is returned
as-is rather than being discarded for the fallback, refuting the claim
that a successfully parsed value failing the schema is replaced by the
fallback. -/
theorem C1_counterexample :
    generate_learning_path (some (.ok exTextA)) (t "python") (t "beginner") (t "1 month")
      = Json.obj [(t "a", Json.num 1)]
    ∧ conformsLearningPath (Json.obj [(t "a", Json.num 1)]) = false
    ∧ generate_learning_path (some (.ok exTextA)) (t "python") (t "beginner") (t "1 month")
      ≠ create_fallback_path (t "python") (t "beginner") (t "1 month") := by
  refine ⟨rfl, rfl, ?_⟩
  intro h
  have h2 : Json.obj [(t "a", Json.num 1)]
      = create_fallback_path (t "python") (t "beginner") (t "1 month") := h
  simp [create_fallback_path] at h2

/-- C1 amended: both fallbacks are schema-conformant, and a successfully
parsed collaborator value is returned as-is with no schema validation
(so only fallback results are guaranteed to conform). -/
theorem C1_amended :
    (∀ topic level timeframe,
        conformsLearningPath (create_fallback_path topic level timeframe) = true)
    ∧ (∀ topic level, conformsQuiz (create_fallback_quiz topic level) = true)
    ∧ (∀ text s j topic level timeframe,
        extractBraced (pyStrip text) = some s → parseJson s = some j →
        generate_learning_path (some (.ok text)) topic level timeframe = j) := by
  refine ⟨fun topic level timeframe => rfl, fun topic level => rfl, ?_⟩
  intro text s j topic level timeframe hE hP
  simp [generate_learning_path, hE, hP]

/-- C1 witness: conformance of a concrete fallback, and the as-is return
of a concrete parsed non-conformant value. -/
theorem C1_amended_witness :
    conformsLearningPath (create_fallback_path (t "python") (t "beginner") (t "1 month")) = true
    ∧ generate_learning_path (some (.ok exTextA)) (t "python") (t "beginner") (t "1 month")
      = Json.obj [(t "a", Json.num 1)] :=
  ⟨C1_amended.1 (t "python") (t "beginner") (t "1 month"),
   C1_amended.2.2 exTextA exTextA (Json.obj [(t "a", Json.num 1)])
      (t "python") (t "beginner") (t "1 month") rfl rfl⟩

/-- C4: when the parsed collaborator object lacks the questions key the
quiz pipeline returns the empty sequence (which is not the fallback
quiz); in every successful-parse case the result is the dictionary
lookup with empty-list default; and the fallback quiz is produced
exactly by the four failure branches: unconfigured, exception, no
brace-delimited substring, parse failure. -/
theorem C4_quiz_missing_questions :
    (∀ text s j topic level,
        extractBraced (pyStrip text) = some s → parseJson s = some j →
        jfield j (t "questions") = none →
        generate_quiz (some (.ok text)) topic level = Json.arr []
          ∧ Json.arr [] ≠ create_fallback_quiz topic level)
    ∧ (∀ text s j topic level,
        extractBraced (pyStrip text) = some s → parseJson s = some j →
        generate_quiz (some (.ok text)) topic level = jgetD j (t "questions") (Json.arr []))
    ∧ (∀ topic level, generate_quiz none topic level = create_fallback_quiz topic level)
    ∧ (∀ topic level, generate_quiz (some .error) topic level = create_fallback_quiz topic level)
    ∧ (∀ text topic level, extractBraced (pyStrip text) = none →
        generate_quiz (some (.ok text)) topic level = create_fallback_quiz topic level)
    ∧ (∀ text s topic level, extractBraced (pyStrip text) = some s → parseJson s = none →
        generate_quiz (some (.ok text)) topic level = create_fallback_quiz topic level) := by
  refine ⟨?_, ?_, fun _ _ => rfl, fun _ _ => rfl, ?_, ?_⟩
  · intro text s j topic level hE hP hQ
    refine ⟨?_, by simp [create_fallback_quiz]⟩
    simp [generate_quiz, hE, hP, jgetD, hQ]
  · intro text s j topic level hE hP
    simp [generate_quiz, hE, hP]
  · intro text topic level hE
    simp [generate_quiz, hE]
  · intro text s topic level hE hP
    simp [generate_quiz, hE, hP]

/-- C4 witness: a parsed object without a questions key yields the empty
sequence; an unparseable slice yields the fallback quiz. -/
theorem C4_quiz_missing_questions_witness :
    generate_quiz (some (.ok exTextA)) (t "python") (t "beginner") = Json.arr []
    ∧ generate_quiz (some (.ok exTextBad)) (t "python") (t "beginner")
      = create_fallback_quiz (t "python") (t "beginner") :=
  ⟨(C4_quiz_missing_questions.1 exTextA exTextA (Json.obj [(t "a", Json.num 1)])
      (t "python") (t "beginner") rfl rfl rfl).1,
   C4_quiz_missing_questions.2.2.2.2.2 exTextBad exTextBad (t "python") (t "beginner")
      rfl rfl⟩

/-- C2: with the collaborator unconfigured (no API key, `self.model` is
`None`), `generate_learning_path` returns exactly the fallback path for
the `(topic, level, timeframe)` tuple.  The fallback is a pure function
of the tuple, so two invocations with the same tuple are definitionally
identical: determinism is inherent to the embedding and to the
randomness-free source. -/
theorem C2_unconfigured_is_fallback (topic level timeframe : Chars) :
    generate_learning_path none topic level timeframe =
      create_fallback_path topic level timeframe := rfl

/-- C10: with an empty `user_answers` sequence, whatever
`correct_answers` is, the score and total are both 0, the `"excellent"`
tier is selected, strengths is the attempted-all-questions sentence and
improvement_areas the continue-learning sentence. -/
theorem C10_empty_answers (topic : Chars) (correct : List Json) :
    quizScore [] correct = 0 ∧
    quiz_feedback topic [] correct =
      ⟨t "Excellent work! You have a strong understanding of the concepts.",
       [t "Attempted all questions"],
       [t "Continue learning advanced topics"],
       [t "Practice more " ++ topic ++ t " exercises",
        t "Build projects to reinforce learning"],
       [t "Official documentation", t "Interactive tutorials",
        t "Practice platforms"]⟩ :=
  ⟨rfl, rfl⟩

/-- C7: the route's `estimated_time` statistic takes the decimal integer
substrings of the `total_estimated_time` text; with none it defaults to
50, with some it is the floor of their arithmetic mean (`//` on
naturals, which agrees with the rational floor); on `"40-60 hours"` it
is 50; `total_steps` is the length of the path's step sequence. -/
theorem C7_derive_stats :
    avg_time (t "40-60 hours") = 50
    ∧ (∀ s, findall_digits s = [] → avg_time s = 50)
    ∧ (∀ s, findall_digits s ≠ [] →
        avg_time s = (findall_digits s).sum / (findall_digits s).length
        ∧ (findall_digits s).sum / (findall_digits s).length
            = Nat.floor (((findall_digits s).sum : ℚ) / ((findall_digits s).length : ℚ)))
    ∧ (∀ lp xs, jfield lp (t "steps") = some (Json.arr xs) →
        route_total_steps lp = some xs.length) := by
  refine ⟨rfl, ?_, ?_, ?_⟩
  · intro s h
    simp [avg_time, h]
  · intro s h
    exact ⟨by simp [avg_time, h], (Nat.floor_div_eq_div _ _).symm⟩
  · intro lp xs h
    simp [route_total_steps, jgetD, h]

/-- C7 witness: the default branch on a digitless text, the mean branch
on the documented example, and `total_steps` on a path with an empty
step array. -/
theorem C7_derive_stats_witness :
    avg_time (t "hours") = 50
    ∧ avg_time (t "40-60 hours")
        = (findall_digits (t "40-60 hours")).sum / (findall_digits (t "40-60 hours")).length
    ∧ route_total_steps (Json.obj [(t "steps", Json.arr [])]) = some 0 :=
  ⟨C7_derive_stats.2.1 (t "hours") rfl,
   (C7_derive_stats.2.2.1 (t "40-60 hours") (by decide)).1,
   C7_derive_stats.2.2.2 (Json.obj [(t "steps", Json.arr [])]) [] rfl⟩

/-- C9: for every topic and level, every question of the fallback quiz
has exactly 4 options and a `correct_answer` index `i` with
`0 ≤ i < len(options)`. -/
theorem C9_fallback_quiz_in_bounds (topic level : Chars) :
    quizQuestionsInBounds (create_fallback_quiz topic level) = true := rfl

/-- C5 counterexample: a request body whose topic is the empty string
passes the route's validation (`data` is truthy and `'topic' in data`),
so no client-side InputError is produced and the generation pipeline is
invoked with the empty topic. -/
theorem C5_counterexample :
    route_pipeline_topic (some [(t "topic", Json.str [])]) = some (Json.str [])
    ∧ route_pipeline_topic (some [(t "topic", Json.str [])]) ≠ none :=
  ⟨rfl, fun h => Option.noConfusion h⟩

/-- C5 amended: the route rejects with a client-side error exactly when
the body is absent/empty or lacks the `topic` key; a present but
empty-string topic passes validation and the pipeline is invoked with
it. -/
theorem C5_amended :
    (∀ data, route_pipeline_topic data = none ↔
        data = none ∨ ∃ fields, data = some fields ∧ lookupLast fields (t "topic") = none)
    ∧ route_pipeline_topic (some [(t "topic", Json.str [])]) = some (Json.str []) := by
  refine ⟨?_, rfl⟩
  intro data
  cases data with
  | none => simp [route_pipeline_topic]
  | some fields =>
    cases fields with
    | nil => simp [route_pipeline_topic, lookupLast]
    | cons kv rest => simp [route_pipeline_topic]

/-- C8 counterexample: on the valid request `(python, beginner,
1 month)` a collaborator response carrying the parseable object with an
empty step array is returned as-is, so the returned path has 0 steps,
not at least 1. -/
theorem C8_counterexample :
    generate_learning_path (some (.ok exTextSteps)) (t "python") (t "beginner") (t "1 month")
      = Json.obj [(t "steps", Json.arr [])]
    ∧ route_total_steps (Json.obj [(t "steps", Json.arr [])]) = some 0 :=
  ⟨rfl, rfl⟩

/-- C8 amended: every result of `generate_learning_path` is either the
fallback path or a successfully parsed collaborator value returned
as-is (which may have any number of steps, including 0); the fallback
path always has exactly 4 steps (hence at least 3) titled Foundation &
Setup, Core Concepts, Practical Application, Advanced Topics, with
total_estimated_time `40-60 hours` and difficulty_progression
`level to intermediate`. -/
theorem C8_amended :
    (∀ collab topic level timeframe,
        generate_learning_path collab topic level timeframe
            = create_fallback_path topic level timeframe
        ∨ ∃ text s j, collab = some (.ok text)
            ∧ extractBraced (pyStrip text) = some s
            ∧ parseJson s = some j
            ∧ generate_learning_path collab topic level timeframe = j)
    ∧ (∀ topic level timeframe,
        route_total_steps (create_fallback_path topic level timeframe) = some 4)
    ∧ (∀ topic level timeframe,
        pathStepTitles (create_fallback_path topic level timeframe)
          = some [some (.str (t "Foundation & Setup")),
                  some (.str (t "Core Concepts")),
                  some (.str (t "Practical Application")),
                  some (.str (t "Advanced Topics"))]
        ∧ jfield (create_fallback_path topic level timeframe) (t "total_estimated_time")
            = some (.str (t "40-60 hours"))
        ∧ jfield (create_fallback_path topic level timeframe) (t "difficulty_progression")
            = some (.str (level ++ t " to intermediate"))) := by
  refine ⟨?_, fun _ _ _ => rfl, fun _ _ _ => ⟨rfl, rfl, rfl⟩⟩
  intro collab topic level timeframe
  match collab with
  | none => exact Or.inl rfl
  | some .error => exact Or.inl rfl
  | some (.ok text) =>
    match hE : extractBraced (pyStrip text) with
    | none =>
      exact Or.inl (by simp [generate_learning_path, hE])
    | some s =>
      match hP : parseJson s with
      | none =>
        exact Or.inl (by simp [generate_learning_path, hE, hP])
      | some j =>
        exact Or.inr ⟨text, s, j, rfl, hE, hP, by simp [generate_learning_path, hE, hP]⟩

/-- Matching against an empty answer key scores zero. -/
theorem countMatches_nil_right : ∀ us : List Json, countMatches us [] = 0 := by
  intro us
  cases us <;> rfl

/-- The enumerate-and-bounds-check score over a tail of the key equals
the positional walk over the dropped key. -/
theorem quizScore_enumFrom (user : List Json) :
    ∀ (n : Nat) (correct : List Json),
      ((user.enumFrom n).filter
        (fun p => decide (p.1 < correct.length)
          && jsonEqB p.2 (correct.getD p.1 .null))).length
      = countMatches user (correct.drop n) := by
  induction user with
  | nil => intro n correct; simp [countMatches]
  | cons a us ih =>
    intro n correct
    by_cases hn : n < correct.length
    · have hdrop : correct.drop n = correct.getD n Json.null :: correct.drop (n + 1) := by
        rw [List.getD_eq_getElem correct Json.null hn]
        exact List.drop_eq_getElem_cons hn
      rw [hdrop]
      simp only [countMatches, List.enumFrom, List.filter_cons]
      have hq : (decide (n < correct.length) && jsonEqB a (correct.getD n Json.null))
          = jsonEqB a (correct.getD n Json.null) := by
        simp [hn]
      rw [hq]
      by_cases hm : jsonEqB a (correct.getD n Json.null) = true
      · simp only [hm, eq_self_iff_true, if_true, List.length_cons]
        rw [ih (n + 1) correct]
        omega
      · have hm2 : jsonEqB a (correct.getD n Json.null) = false := by
          simpa using hm
        simp only [hm2, Bool.false_eq_true, if_false]
        rw [ih (n + 1) correct]
        omega
    · have hlen : correct.length ≤ n := Nat.le_of_not_lt hn
      have h1 : correct.drop n = [] := List.drop_eq_nil_of_le hlen
      have h2 : correct.drop (n + 1) = [] := List.drop_eq_nil_of_le (Nat.le_succ_of_le hlen)
      rw [h1, countMatches_nil_right]
      simp only [List.enumFrom, List.filter_cons]
      have hq : (decide (n < correct.length) && jsonEqB a (correct.getD n Json.null))
          = false := by
        simp [hn]
      rw [hq]
      simp only [Bool.false_eq_true, if_false]
      rw [ih (n + 1) correct, h2, countMatches_nil_right]

/-- The score of `quiz_feedback` is the count of positions valid in both
sequences whose entries match. -/
theorem quizScore_eq_countMatches (user correct : List Json) :
    quizScore user correct = countMatches user correct := by
  have h := quizScore_enumFrom user 0 correct
  simpa [quizScore, List.enum] using h

/-- The 0.8-fraction test of the spec agrees with integer arithmetic. -/
theorem ge_four_fifths_iff (s n : ℕ) : (s : ℚ) ≥ 0.8 * n ↔ 5 * s ≥ 4 * n := by
  constructor
  · intro h
    have h5 : (4 * n : ℚ) ≤ 5 * s := by nlinarith
    exact_mod_cast h5
  · intro h
    have h5 : (4 * n : ℚ) ≤ 5 * s := by exact_mod_cast h
    nlinarith

/-- The 0.6-fraction test of the spec agrees with integer arithmetic. -/
theorem ge_three_fifths_iff (s n : ℕ) : (s : ℚ) ≥ 0.6 * n ↔ 5 * s ≥ 3 * n := by
  constructor
  · intro h
    have h5 : (3 * n : ℚ) ≤ 5 * s := by nlinarith
    exact_mod_cast h5
  · intro h
    have h5 : (3 * n : ℚ) ≤ 5 * s := by exact_mod_cast h
    nlinarith

/-- C6: the score counts the positions valid in both sequences where
the answers match (mismatched lengths never fail); with total the
length of `user_answers`, the feedback sentence is selected by
score = total, then score ≥ 0.8·total, then score ≥ 0.6·total, else the
needs-practice sentence; on `user_answers = [1,2,0]` against
`correct_answers = [1,2,1]` the good tier is selected with
improvement_areas `Review missed topics`. -/
theorem C6_quiz_feedback_tiers :
    (∀ user correct, quizScore user correct = countMatches user correct)
    ∧ (∀ topic (user correct : List Json),
        (quiz_feedback topic user correct).overall_feedback
          = (if quizScore user correct = user.length then
               t "Excellent work! You have a strong understanding of the concepts."
             else if (quizScore user correct : ℚ) ≥ 0.8 * user.length then
               t "Great job! You're doing very well with most concepts."
             else if (quizScore user correct : ℚ) ≥ 0.6 * user.length then
               t "Good progress! Review the areas where you missed questions."
             else
               t "Keep practicing! Focus on the fundamental concepts."))
    ∧ (quiz_feedback (t "python") [Json.num 1, Json.num 2, Json.num 0]
          [Json.num 1, Json.num 2, Json.num 1]).overall_feedback
        = t "Good progress! Review the areas where you missed questions."
    ∧ (quiz_feedback (t "python") [Json.num 1, Json.num 2, Json.num 0]
          [Json.num 1, Json.num 2, Json.num 1]).improvement_areas
        = [t "Review missed topics"] := by
  refine ⟨quizScore_eq_countMatches, ?_, rfl, rfl⟩
  intro topic user correct
  by_cases h1 : quizScore user correct = user.length
  · simp [quiz_feedback, h1]
  · by_cases h2 : 5 * quizScore user correct ≥ 4 * user.length
    · have h2q : (quizScore user correct : ℚ) ≥ 0.8 * user.length :=
        (ge_four_fifths_iff (quizScore user correct) user.length).2 h2
      simp [quiz_feedback, h1, h2, h2q]
    · have h2q : ¬ (quizScore user correct : ℚ) ≥ 0.8 * user.length :=
        fun hq => h2 ((ge_four_fifths_iff (quizScore user correct) user.length).1 hq)
      by_cases h3 : 5 * quizScore user correct ≥ 3 * user.length
      · have h3q : (quizScore user correct : ℚ) ≥ 0.6 * user.length :=
          (ge_three_fifths_iff (quizScore user correct) user.length).2 h3
        simp [quiz_feedback, h1, h2, h2q, h3, h3q]
      · have h3q : ¬ (quizScore user correct : ℚ) ≥ 0.6 * user.length :=
          fun hq => h3 ((ge_three_fifths_iff (quizScore user correct) user.length).1 hq)
        simp [quiz_feedback, h1, h2, h2q, h3, h3q]

end AILearn
